import Mathlib

/-!
Verification of the selfie.fm content-to-voice pipeline.

Shallow embedding of the backend modules the claims refer to:
- `backend/script_writer.py` (script parsing, cleaning, fallback padding),
- `backend/scraper_enhanced.py` (content extraction, link classification),
- `backend/app.py` (script selection and audio-generation endpoints),
- `backend/voice_clone.py` (speech-synthesis gateway).

Python strings are modelled as Lean `String` (operating on `String.data`),
machine-level details (HTTP, HTML parsing, the filesystem) are modelled by
explicit parameters and state: a fetch or provider call becomes a value
describing its outcome, the audio directory becomes an association list
from relative path to byte content.
-/

namespace SelfieFM

/-- Python whitespace predicate used by `str.split()` / `str.strip()`
(ASCII whitespace: space, tab, newline, carriage return, vertical tab, form feed). -/
def pyIsSpace (c : Char) : Bool :=
  c = ' ' || c = '\t' || c = '\n' || c = '\r' || c = '\x0b' || c = '\x0c'

/-- Python decimal digit predicate (`\d` over ASCII). -/
def pyIsDigit (c : Char) : Bool :=
  '0' ≤ c && c ≤ '9'

/-- Accumulator-based whitespace tokenizer: `splitWsAux cs acc` tokenizes
`cs`, with `acc` the (reversed) token currently being built.  Mirrors
Python `str.split()` with no argument: maximal runs of non-whitespace
characters, empty tokens never produced. -/
def splitWsAux : List Char → List Char → List (List Char)
  | [], acc => if acc.isEmpty then [] else [acc.reverse]
  | c :: cs, acc =>
    if pyIsSpace c then
      if acc.isEmpty then splitWsAux cs []
      else acc.reverse :: splitWsAux cs []
    else splitWsAux cs (c :: acc)

/-- Python `s.split()` (whitespace tokenization, empties dropped). -/
def pySplitWs (s : String) : List String :=
  (splitWsAux s.data []).map String.mk

/-- Strip characters satisfying `p` from both ends of a character list. -/
def stripList (p : Char → Bool) (cs : List Char) : List Char :=
  ((cs.dropWhile p).reverse.dropWhile p).reverse

/-- Python `s.strip()` (whitespace from both ends). -/
def pyStrip (s : String) : String :=
  String.mk (stripList pyIsSpace s.data)

/-- Python `s.strip(chars)` for an explicit character set. -/
def pyStripChars (s : String) (chars : List Char) : String :=
  String.mk (stripList (fun c => chars.contains c) s.data)

/-- Python `' '.join(xs)`. -/
def joinSpace : List String → String
  | [] => ""
  | [s] => s
  | s :: rest => s ++ " " ++ joinSpace rest

/-- Python `s.lower()` (ASCII case folding suffices for the keyword scans). -/
def pyLower (s : String) : String :=
  String.mk (s.data.map Char.toLower)

/-- `startsWithL needle hay`: `needle` is a prefix of `hay`. -/
def startsWithL : List Char → List Char → Bool
  | [], _ => true
  | _ :: _, [] => false
  | n :: ns, h :: hs => n = h && startsWithL ns hs

/-- Substring containment on character lists (`needle in hay` in Python). -/
def containsSubL (needle : List Char) : List Char → Bool
  | [] => startsWithL needle []
  | h :: hs => startsWithL needle (h :: hs) || containsSubL needle hs

/-- Python `needle in hay` on strings. -/
def pyContains (hay needle : String) : Bool :=
  containsSubL needle.data hay.data

/-- Python `s.startswith(pre)`. -/
def pyStartsWith (s pre : String) : Bool :=
  startsWithL pre.data s.data

/-- Consume the pattern `pat` (given in lowercase) case-insensitively from
the front of `cs`; return the remainder on success. -/
def matchCaseless : List Char → List Char → Option (List Char)
  | [], cs => some cs
  | _ :: _, [] => none
  | p :: ps, c :: cs => if c.toLower = p then matchCaseless ps cs else none

/-- Consume one-or-more characters satisfying `p` (`\s+`, `\d+`): fails when
the first character does not satisfy `p`, otherwise drops the maximal run. -/
def consumeSome (p : Char → Bool) : List Char → Option (List Char)
  | [] => none
  | c :: cs => if p c then some (cs.dropWhile p) else none

/-- Match the regex `SCRIPT\s+\d+:` (flags=IGNORECASE) at the head of `cs`,
returning the remainder after the match.  Since `\s`, `\d` and `:` are
pairwise disjoint character classes, greedy matching needs no backtracking. -/
def matchScriptMarker (cs : List Char) : Option (List Char) :=
  (matchCaseless "script".data cs).bind fun r1 =>
    (consumeSome pyIsSpace r1).bind fun r2 =>
      (consumeSome pyIsDigit r2).bind fun r3 =>
        match r3 with
        | ':' :: r4 => some r4
        | _ => none

theorem matchCaseless_length :
    ∀ (ps cs r : List Char), matchCaseless ps cs = some r →
      r.length + ps.length = cs.length := by
  intro ps
  induction ps with
  | nil => intro cs r h; simp [matchCaseless] at h; simp [h]
  | cons p ps ih =>
    intro cs r h
    cases cs with
    | nil => simp [matchCaseless] at h
    | cons c cs =>
      simp only [matchCaseless] at h
      by_cases hc : c.toLower = p
      · simp [hc] at h
        have := ih cs r h
        simp [List.length_cons]
        omega
      · simp [hc] at h

theorem consumeSome_length {p : Char → Bool} :
    ∀ (cs r : List Char), consumeSome p cs = some r → r.length < cs.length := by
  intro cs r h
  cases cs with
  | nil => simp [consumeSome] at h
  | cons c cs =>
    simp only [consumeSome] at h
    by_cases hc : p c
    · simp [hc] at h
      have hle : (cs.dropWhile p).length ≤ cs.length :=
        (List.dropWhile_sublist (l := cs) p).length_le
      simp [← h, List.length_cons]
      omega
    · simp [hc] at h

theorem matchScriptMarker_length :
    ∀ (cs r : List Char), matchScriptMarker cs = some r → r.length < cs.length := by
  intro cs r h
  unfold matchScriptMarker at h
  cases h1 : matchCaseless "script".data cs with
  | none => rw [h1, Option.none_bind] at h; exact absurd h (by simp)
  | some r1 =>
    rw [h1, Option.some_bind] at h
    cases h2 : consumeSome pyIsSpace r1 with
    | none => rw [h2, Option.none_bind] at h; exact absurd h (by simp)
    | some r2 =>
      rw [h2, Option.some_bind] at h
      cases h3 : consumeSome pyIsDigit r2 with
      | none => rw [h3, Option.none_bind] at h; exact absurd h (by simp)
      | some r3 =>
        rw [h3, Option.some_bind] at h
        have e1 := matchCaseless_length _ _ _ h1
        have e2 := consumeSome_length _ _ h2
        have e3 := consumeSome_length _ _ h3
        cases r3 with
        | nil => exact absurd h (by simp)
        | cons c r4 =>
          by_cases hc : c = ':'
          · subst hc
            simp only [Option.some.injEq] at h
            subst h
            simp only [String.data] at e1
            simp only [List.length_cons] at e2 e3 ⊢
            omega
          · rw [show (match c :: r4 with
                | ':' :: r4 => some r4
                | _ => none) = none by
                  cases c <;> simp_all] at h
            exact absurd h (by simp)

/-- Leftmost non-overlapping split of the input at `SCRIPT\s+\d+:` matches,
mirroring `re.split(r'SCRIPT\s+\d+:', text, flags=re.IGNORECASE)`:
`acc` holds the (reversed) current segment.  Structural recursion on a fuel
argument keeps the definition kernel-reducible; a match consumes at least one
character (`matchScriptMarker_length`), so fuel `cs.length` never runs out
and the fuel-exhausted branch is unreachable from `splitByMarker`. -/
def splitByMarkerF : Nat → List Char → List Char → List (List Char)
  | 0, cs, acc => [acc.reverse ++ cs]
  | _ + 1, [], acc => [acc.reverse]
  | fuel + 1, c :: cs, acc =>
    match matchScriptMarker (c :: cs) with
    | some rem => acc.reverse :: splitByMarkerF fuel rem []
    | none => splitByMarkerF fuel cs (c :: acc)

/-- `splitByMarkerF` with adequate fuel. -/
def splitByMarker (cs acc : List Char) : List (List Char) :=
  splitByMarkerF cs.length cs acc

/-- `re.split(r'SCRIPT\s+\d+:', s, flags=re.IGNORECASE)` on a string. -/
def reSplitScriptMarkers (s : String) : List String :=
  (splitByMarker s.data []).map String.mk

/-- Leftmost non-overlapping split at an explicit non-empty separator
`s0 :: srest`, mirroring Python `str.split(sep)`.  Fuel-structured like
`splitByMarkerF`; a separator match consumes `1 + srest.length ≥ 1`
characters, so fuel `cs.length` suffices. -/
def splitOnSepF (s0 : Char) (srest : List Char) : Nat → List Char → List Char → List (List Char)
  | 0, cs, acc => [acc.reverse ++ cs]
  | _ + 1, [], acc => [acc.reverse]
  | fuel + 1, c :: cs, acc =>
    if startsWithL (s0 :: srest) (c :: cs) then
      acc.reverse :: splitOnSepF s0 srest fuel (cs.drop srest.length) []
    else splitOnSepF s0 srest fuel cs (c :: acc)

/-- Python `s.split(sep)` for the non-empty separator `s0 :: srest`. -/
def pySplitOnSep (s : String) (s0 : Char) (srest : List Char) : List String :=
  (splitOnSepF s0 srest s.data.length s.data []).map String.mk

/-! ## `backend/script_writer.py`: parsing and cleaning of generated scripts -/

/-- `line.startswith(('Here', 'Note:', 'Script:', 'Remember'))` from
`ScriptWriter._clean_script`: lines recognised as meta-commentary. -/
def startsWithMeta (l : String) : Bool :=
  pyStartsWith l "Here" || pyStartsWith l "Note:" ||
    pyStartsWith l "Script:" || pyStartsWith l "Remember"

/-- The quote-stripping, meta-line dropping and single-line collapsing part of
`ScriptWriter._clean_script` (everything before the 50-word truncation):
strip surrounding `"`/`'`, split into lines, strip each line, drop empty and
meta-commentary lines, join the survivors with single spaces. -/
def clean_join (script : String) : String :=
  let s1 := pyStripChars script ['"', '\'']
  let lines := pySplitOnSep s1 '\n' []
  let cleaned := lines.filterMap (fun l =>
    let l2 := pyStrip l
    if l2 != "" && !startsWithMeta l2 then some l2 else none)
  joinSpace cleaned

/-- `ScriptWriter._clean_script`: clean the text, then if it has more than 55
whitespace tokens, keep the first 50 and append an ellipsis. -/
def clean_script (script : String) : String :=
  if 55 < (pySplitWs (clean_join script)).length then
    joinSpace ((pySplitWs (clean_join script)).take 50) ++ "..."
  else clean_join script

/-- One entry of the list `_parse_multiple_scripts` returns:
`{'script': ..., 'word_count': ...}`. -/
structure ScriptCandidate where
  script : String
  word_count : Nat
deriving Repr, DecidableEq

/-- A parsed candidate: the cleaned segment together with
`len(script.split())` as its word count. -/
def mkScriptCandidate (t : String) : ScriptCandidate :=
  ⟨clean_script t, (pySplitWs (clean_script t)).length⟩

/-- The templated fallback script used to pad short parses:
`f"Check out {parts[0][:50] if parts else 'this amazing offer'}... Click to learn more!"`. -/
def fallbackScript (parts : List String) : String :=
  "Check out " ++ (match parts with
    | [] => "this amazing offer"
    | p :: _ => String.mk (p.data.take 50)) ++ "... Click to learn more!"

/-- The fallback candidate appended by the padding loop of
`_parse_multiple_scripts`; its word count is the hard-coded literal 10. -/
def fallbackCandidate (parts : List String) : ScriptCandidate :=
  ⟨fallbackScript parts, 10⟩

/-- The segment list `_parse_multiple_scripts` works from: split on
`SCRIPT n:` markers, strip, drop empties; if that yields fewer than
`expected_count` segments, split on blank lines (`'\n\n'`) instead. -/
def partsOfResponse (scripts_text : String) (expected_count : Nat) : List String :=
  let parts0 := ((reSplitScriptMarkers scripts_text).map pyStrip).filter (fun p => p != "")
  if parts0.length < expected_count then
    ((pySplitOnSep scripts_text '\n' ['\n']).map pyStrip).filter (fun p => p != "")
  else parts0

/-- The candidates parsed from the first `expected_count` segments
(the `for i, script_text in enumerate(parts[:expected_count])` loop). -/
def parsedCandidates (scripts_text : String) (expected_count : Nat) : List ScriptCandidate :=
  ((partsOfResponse scripts_text expected_count).take expected_count).map mkScriptCandidate

/-- `ScriptWriter._parse_multiple_scripts`: clean the first `expected_count`
segments into candidates, then pad with the fallback candidate until
`expected_count` entries exist (the `while len(scripts) < expected_count` loop
appends the same fallback dict each iteration). -/
def parse_multiple_scripts (scripts_text : String) (expected_count : Nat) : List ScriptCandidate :=
  parsedCandidates scripts_text expected_count ++
    List.replicate (expected_count - (parsedCandidates scripts_text expected_count).length)
      (fallbackCandidate (partsOfResponse scripts_text expected_count))

/-- `ScriptWriter.generate_pitch_scripts` as a function of the provider's
response text: the provider call (OpenAI or Anthropic) returns `response`,
which is then parsed with the default `num_options = 3`. -/
def generate_pitch_scripts (response : String) : List ScriptCandidate :=
  parse_multiple_scripts response 3

/-! ## `backend/scraper_enhanced.py`: content extraction and classification -/

/-- The result dictionary of `EnhancedScraper.scrape_page_content`
(keys `title`, `meta_description`, `preview_text`, `full_content`). -/
structure PageContent where
  title : Option String
  meta_description : Option String
  preview_text : Option String
  full_content : Option String
deriving Repr, DecidableEq

/-- The initial `result` dict, also returned unchanged on any fetch or
parse exception: all four fields `None`. -/
def emptyPageContent : PageContent :=
  ⟨none, none, none, none⟩

/-- Outcome of `requests.get` + BeautifulSoup parsing, the effectful part of
`scrape_page_content`: `failure` covers a timeout, connection failure or
non-2xx status (`requests.exceptions.RequestException`) as well as any other
exception; `success` carries the `<title>` text, the meta/og description
(each `None` when the tag is missing) and the text `soup.get_text()` yields
after script/style/nav/header/footer removal. -/
inductive FetchOutcome where
  | failure
  | success (title meta_description : Option String) (raw_text : String)
deriving Repr, DecidableEq

/-- The whitespace normalization of `scrape_page_content`: split into lines,
strip each, split each line at double spaces into stripped chunks, join the
non-empty chunks with single spaces.  (Python `splitlines` is modelled as
splitting at `'\n'`.) -/
def normalizeText (raw : String) : String :=
  joinSpace ((((pySplitOnSep raw '\n' []).map pyStrip).map
    (fun line => (pySplitOnSep line ' ' [' ']).map pyStrip)).join.filter
      (fun c => c != ""))

/-- The preview computation of `scrape_page_content`: the first 200
whitespace tokens, with `'...'` appended when the text has more. -/
def makePreview (text : String) : String :=
  if 200 < (pySplitWs text).length then
    joinSpace ((pySplitWs text).take 200) ++ "..."
  else text

/-- `EnhancedScraper.scrape_page_content` given the fetch outcome: on failure
the untouched empty record, on success the stripped title and description,
the normalized full text, and its preview. -/
def scrape_page_content (outcome : FetchOutcome) : PageContent :=
  match outcome with
  | .failure => emptyPageContent
  | .success title meta raw =>
    { title := title.map pyStrip
      meta_description := meta.map pyStrip
      preview_text := some (makePreview (normalizeText raw))
      full_content := some (normalizeText raw) }

def courseWords : List String :=
  ["course", "learn", "lesson", "module", "curriculum", "training"]

def coachingWords : List String :=
  ["coaching", "mentorship", "1-on-1", "one-on-one", "consultation"]

def productWords : List String :=
  ["product", "buy", "shop", "store", "purchase", "price", "$", "cart"]

def newsletterWords : List String :=
  ["newsletter", "subscribe", "email list", "weekly digest"]

def blogWords : List String :=
  ["blog", "article", "post", "read"]

def socialPlatforms : List String :=
  ["instagram", "twitter", "facebook", "linkedin", "tiktok", "youtube"]

/-- `f"{url_lower} {title} {description} {preview}"` from
`identify_link_type`, each part lowercased and defaulted to the empty
string. -/
def combinedText (url : String) (content : PageContent) : String :=
  pyLower url ++ " " ++ pyLower (content.title.getD "") ++ " " ++
    pyLower (content.meta_description.getD "") ++ " " ++
      pyLower (content.preview_text.getD "")

/-- `EnhancedScraper.identify_link_type`: keyword-membership scan over the
combined lowercased text in fixed priority order, first match wins. -/
def identify_link_type (url : String) (content : PageContent) : String :=
  if courseWords.any (fun w => pyContains (combinedText url content) w) then "course"
  else if coachingWords.any (fun w => pyContains (combinedText url content) w) then "coaching"
  else if productWords.any (fun w => pyContains (combinedText url content) w) then "product"
  else if newsletterWords.any (fun w => pyContains (combinedText url content) w) then "newsletter"
  else if blogWords.any (fun w => pyContains (combinedText url content) w) then "blog"
  else if pyContains (pyLower url) "youtube.com" || pyContains (pyLower url) "vimeo.com" ||
      pyContains (combinedText url content) "video" then "video"
  else if socialPlatforms.any (fun p => pyContains (pyLower url) p) then "social"
  else "website"

/-- The 8-member link-type enum. -/
def linkTypeEnum : List String :=
  ["course", "coaching", "product", "newsletter", "blog", "video", "social", "website"]

/-- Python `'\n'.join(xs)`. -/
def joinNewline : List String → String
  | [] => ""
  | [s] => s
  | s :: rest => s ++ "\n" ++ joinNewline rest

/-- `EnhancedScraper.create_context_summary`: fixed-order newline-joined
rendering of the truthy fields. -/
def create_context_summary (content : PageContent) (link_type : String) : String :=
  joinNewline
    ((match content.title with
      | some t => if t != "" then ["Title: " ++ t] else []
      | none => []) ++
     (match content.meta_description with
      | some d => if d != "" then ["Description: " ++ d] else []
      | none => []) ++
     ["Link Type: " ++ link_type] ++
     (match content.preview_text with
      | some p => if p != "" then
          ["Preview: " ++ joinSpace ((pySplitWs p).take 100)] else []
      | none => []))

/-- The dictionary `scrape_link_content` (module-level convenience function)
returns: the scraped content plus `link_type` and `context_summary`. -/
structure ScrapedLink where
  content : PageContent
  link_type : String
  context_summary : String
deriving Repr, DecidableEq

/-- Module-level `scrape_link_content`: scrape, classify, summarize. -/
def scrape_link_content (url : String) (outcome : FetchOutcome) : ScrapedLink :=
  ⟨scrape_page_content outcome,
   identify_link_type url (scrape_page_content outcome),
   create_context_summary (scrape_page_content outcome)
     (identify_link_type url (scrape_page_content outcome))⟩

/-- Python `s.endswith(suffix)`. -/
def pyEndsWith (s suffix : String) : Bool :=
  startsWithL suffix.data.reverse s.data.reverse

/-! ## `backend/app.py`: the Link record and script selection -/

/-- Python truthiness of an optional string: `None` and `''` are falsy. -/
def pyTruthy : Option String → Bool
  | none => false
  | some s => s != ""

/-- The columns of the `Link` record that the selection and audio endpoints
read or write (`script_brief` / `script_standard` / `script_conversational`
cache the 3 generated variations; `selected_script` / `voice_message_text`
hold the chosen text; `voice_message_audio` the artifact's relative path). -/
structure Link where
  script_brief : Option String
  script_standard : Option String
  script_conversational : Option String
  selected_script : Option String
  voice_message_text : Option String
  voice_message_audio : Option String
deriving Repr, DecidableEq

/-- The request body of `POST /api/links/{id}/select-script`
(`script_index` is read but never used by the endpoint). -/
structure SelectScriptRequest where
  script_type : Option String
  custom_text : Option String
  script : Option String
  script_index : Option Int
deriving Repr, DecidableEq

/-- Outcome of `select_script_for_link`: a 400 response before any write, a
committed update with a 200 response, or a committed update followed by an
uncaught exception (`len(link.selected_script)` raises `TypeError` when the
selected script is `None` — the commit has already happened). -/
inductive SelectResult where
  | badRequest (detail : String)
  | committed (link : Link)
  | committedThenError (link : Link)
deriving Repr, DecidableEq

/-- `select_script_for_link` from `app.py`: guard, then the
`script` / `custom_text` / `script_type` precedence chain, then
`db.commit()` and the logging line that fails on a `None` selection. -/
def select_script_for_link (link : Link) (req : SelectScriptRequest) : SelectResult :=
  if !pyTruthy req.script_type && !pyTruthy req.custom_text && !pyTruthy req.script then
    .badRequest "Either script_type, custom_text, or script is required"
  else
    match
      (if pyTruthy req.script then
        some { link with selected_script := req.script, voice_message_text := req.script }
      else if pyTruthy req.custom_text then
        some { link with selected_script := req.custom_text,
                         voice_message_text := req.custom_text }
      else if req.script_type = some "brief" then
        some { link with selected_script := link.script_brief,
                         voice_message_text := link.script_brief }
      else if req.script_type = some "standard" then
        some { link with selected_script := link.script_standard,
                         voice_message_text := link.script_standard }
      else if req.script_type = some "conversational" then
        some { link with selected_script := link.script_conversational,
                         voice_message_text := link.script_conversational }
      else none) with
    | none => .badRequest "Invalid script_type"
    | some link' =>
      match link'.selected_script with
      | none => .committedThenError link'
      | some _ => .committed link'

/-- The link state the database holds after the endpoint ran (`none` when the
request was rejected before the commit). -/
def persistedLink : SelectResult → Option Link
  | .badRequest _ => none
  | .committed l => some l
  | .committedThenError l => some l

/-! ## `backend/voice_clone.py` and the audio endpoint -/

/-- The audio directory as an association list from relative path to byte
content. -/
abbrev FS := List (String × List Nat)

def fileExists (fs : FS) (p : String) : Bool :=
  fs.any (fun e => e.1 == p)

/-- `open(path, 'wb')` + chunked write: truncates any prior file at the
path, then stores the body. -/
def writeFile (fs : FS) (p : String) (b : List Nat) : FS :=
  fs.filter (fun e => e.1 != p) ++ [(p, b)]

/-- `Path.unlink()` guarded by `Path.exists()` (a no-op when absent). -/
def deleteFile (fs : FS) (p : String) : FS :=
  fs.filter (fun e => e.1 != p)

/-- The speech provider's HTTP response to the streaming
`text-to-speech/{voice_id}` request; the body is the concatenation of the
non-empty chunks `iter_content` yields. -/
structure ProviderResponse where
  status : Nat
  body : List Nat
deriving Repr, DecidableEq

/-- `AudioGenerator.generate_audio` given the provider call's outcome
(`none` models a raised exception): on a 200 status the body is written to
`output_path` and `True` is returned; any other status or an exception
returns `False` without touching the store. -/
def generate_audio (resp : Option ProviderResponse) (output_path : String) (fs : FS) :
    Bool × FS :=
  match resp with
  | none => (false, fs)
  | some r => if r.status = 200 then (true, writeFile fs output_path r.body) else (false, fs)

/-- The mutable state the audio endpoint works on: the audio directory and
the link record. -/
structure AudioState where
  fs : FS
  link : Link
deriving Repr, DecidableEq

/-- Outcome of `generate_audio_for_link`: success response, or an HTTP error
carrying the state as it stood when the error was raised. -/
inductive AudioResult where
  | ok (st : AudioState)
  | err (detail : String) (st : AudioState)
deriving Repr, DecidableEq

/-- `generate_audio_for_link` from `app.py` (via `generate_voice_audio`):
guards on the owner's `voice_clone_id` and the link's `voice_message_text`,
synthesizes into a fresh `link_voices/{filename}` path, verifies the file
exists, deletes the previously referenced artifact (best-effort), then
persists the new path and text. -/
def generate_audio_for_link (voice_clone_id : Option String) (st : AudioState)
    (resp : Option ProviderResponse) (audio_filename : String) : AudioResult :=
  if pyTruthy voice_clone_id = false then
    .err "Voice clone not set up. Please create a voice clone first by recording your voice." st
  else if pyTruthy st.link.voice_message_text = false then
    .err "No script selected for this link. Please select a script first." st
  else if pyStrip (st.link.voice_message_text.getD "") = "" then
    .err "Script text is empty" st
  else
    match generate_audio resp ("link_voices/" ++ audio_filename) st.fs with
    | (success, fs1) =>
      if success = false then
        .err "Failed to generate audio. Please check your voice clone and try again."
          ⟨fs1, st.link⟩
      else if fileExists fs1 ("link_voices/" ++ audio_filename) = false then
        .err "Audio file was not created" ⟨fs1, st.link⟩
      else
        .ok ⟨(if pyTruthy st.link.voice_message_audio then
                deleteFile fs1 (st.link.voice_message_audio.getD "")
              else fs1),
             { st.link with
                voice_message_audio := some ("link_voices/" ++ audio_filename),
                voice_message_text := some (st.link.voice_message_text.getD "") }⟩

/-! ## Tokenizer lemmas -/

theorem splitWsAux_nil (acc : List Char) :
    splitWsAux [] acc = if acc.isEmpty then [] else [acc.reverse] := rfl

theorem splitWsAux_cons (c : Char) (cs acc : List Char) :
    splitWsAux (c :: cs) acc =
      if pyIsSpace c then
        (if acc.isEmpty then splitWsAux cs [] else acc.reverse :: splitWsAux cs [])
      else splitWsAux cs (c :: acc) := rfl

theorem splitWsAux_cons_nonspace (c : Char) (cs acc : List Char)
    (hc : pyIsSpace c = false) :
    splitWsAux (c :: cs) acc = splitWsAux cs (c :: acc) := by
  simp [splitWsAux_cons, hc]

theorem splitWsAux_cons_space (c : Char) (cs acc : List Char)
    (hc : pyIsSpace c = true) (ha : acc.isEmpty = false) :
    splitWsAux (c :: cs) acc = acc.reverse :: splitWsAux cs [] := by
  simp [splitWsAux_cons, hc, ha]

/-- Twice the number of whitespace tokens is at most the character count
plus one: tokens are non-empty and separated by at least one character. -/
theorem splitWsAux_two_mul_length_le :
    ∀ (cs acc : List Char),
      2 * (splitWsAux cs acc).length ≤ cs.length + (if acc.isEmpty then 1 else 2) := by
  intro cs
  induction cs with
  | nil =>
    intro acc
    by_cases h : acc.isEmpty <;> simp [splitWsAux_nil, h]
  | cons c cs ih =>
    intro acc
    have h1 := ih []
    have h2 := ih (c :: acc)
    simp only [List.isEmpty_nil, List.isEmpty_cons, if_true] at h1 h2
    norm_num at h2
    by_cases hsp : pyIsSpace c <;> by_cases hacc : acc.isEmpty <;>
      simp only [splitWsAux_cons, hsp, hacc, if_true, if_false, Bool.false_eq_true,
        List.length_cons] <;>
      omega

/-- Every token produced by the whitespace tokenizer is non-empty and free of
whitespace characters (provided the accumulator already is). -/
theorem splitWsAux_mem :
    ∀ (cs acc : List Char), (∀ c ∈ acc, pyIsSpace c = false) →
      ∀ t ∈ splitWsAux cs acc, t ≠ [] ∧ ∀ c ∈ t, pyIsSpace c = false := by
  intro cs
  induction cs with
  | nil =>
    intro acc hacc t ht
    by_cases h : acc.isEmpty
    · simp [splitWsAux_nil, h] at ht
    · simp only [splitWsAux_nil, h, Bool.false_eq_true, if_false,
        List.mem_singleton] at ht
      subst ht
      have hacc' : acc ≠ [] := fun he => h (by simp [he])
      refine ⟨fun he => hacc' (by simpa using he), ?_⟩
      intro c hc
      exact hacc c (List.mem_reverse.mp hc)
  | cons c cs ih =>
    intro acc hacc t ht
    by_cases hsp : pyIsSpace c
    · by_cases h : acc.isEmpty
      · rw [splitWsAux_cons] at ht
        simp only [hsp, h, if_true] at ht
        exact ih [] (by simp) t ht
      · rw [splitWsAux_cons_space c cs acc hsp (by simpa using h)] at ht
        rcases List.mem_cons.mp ht with rfl | ht
        · have hacc' : acc ≠ [] := fun he => h (by simp [he])
          refine ⟨fun he => hacc' (by simpa using he), ?_⟩
          intro x hx
          exact hacc x (List.mem_reverse.mp hx)
        · exact ih [] (by simp) t ht
    · rw [splitWsAux_cons_nonspace c cs acc (by simpa using hsp)] at ht
      refine ih (c :: acc) ?_ t ht
      intro x hx
      rcases List.mem_cons.mp hx with rfl | hx
      · simpa using hsp
      · exact hacc x hx

/-- Feeding a whitespace-free chunk into the tokenizer just extends the
current accumulator. -/
theorem splitWsAux_append_chunk :
    ∀ (t : List Char), (∀ c ∈ t, pyIsSpace c = false) →
      ∀ (cs acc : List Char),
        splitWsAux (t ++ cs) acc = splitWsAux cs (t.reverse ++ acc) := by
  intro t
  induction t with
  | nil => intro _ cs acc; simp
  | cons c t ih =>
    intro h cs acc
    have hc : pyIsSpace c = false := h c (by simp)
    have ht : ∀ x ∈ t, pyIsSpace x = false := fun x hx => h x (by simp [hx])
    rw [List.cons_append, splitWsAux_cons_nonspace c (t ++ cs) acc hc,
      ih ht cs (c :: acc)]
    simp

/-- Token count of `' '.join(ts) ++ suf` for non-empty whitespace-free tokens
`ts` and a non-empty whitespace-free suffix: the suffix glues onto the last
token, so the count is exactly `ts.length`. -/
theorem splitWsAux_joinSpace_suffix :
    ∀ (ts : List String), ts ≠ [] →
      (∀ t ∈ ts, t.data ≠ [] ∧ ∀ c ∈ t.data, pyIsSpace c = false) →
      ∀ (suf : List Char), suf ≠ [] → (∀ c ∈ suf, pyIsSpace c = false) →
        (splitWsAux ((joinSpace ts).data ++ suf) []).length = ts.length := by
  intro ts
  induction ts with
  | nil => intro h; exact absurd rfl h
  | cons t ts ih =>
    intro _ hclean suf hsuf hsufclean
    have htne : t.data ≠ [] := (hclean t (by simp)).1
    have htcl : ∀ c ∈ t.data, pyIsSpace c = false := (hclean t (by simp)).2
    cases ts with
    | nil =>
      have hall : ∀ c ∈ t.data ++ suf, pyIsSpace c = false := by
        intro c hc
        rcases List.mem_append.mp hc with hc | hc
        · exact htcl c hc
        · exact hsufclean c hc
      have hch := splitWsAux_append_chunk (t.data ++ suf) hall [] []
      simp only [List.append_nil] at hch
      show (splitWsAux (t.data ++ suf) []).length = 1
      rw [hch, splitWsAux_nil]
      have hne : ((t.data ++ suf).reverse).isEmpty = false := by
        simp [List.isEmpty_iff, htne]
      simp [hne, hsuf]
    | cons t2 ts2 =>
      have hdata : (joinSpace (t :: t2 :: ts2)).data ++ suf
          = t.data ++ (' ' :: ((joinSpace (t2 :: ts2)).data ++ suf)) := by
        show (t ++ " " ++ joinSpace (t2 :: ts2)).data ++ suf = _
        rw [String.data_append, String.data_append]
        rw [show (" ".data : List Char) = [' '] from rfl]
        simp [List.append_assoc]
      have hne : (t.data.reverse ++ ([] : List Char)).isEmpty = false := by
        simp [List.isEmpty_iff, htne]
      rw [hdata, splitWsAux_append_chunk t.data htcl _ [],
        splitWsAux_cons_space _ _ _ (by decide) hne]
      simp only [List.length_cons]
      rw [ih (by simp) (fun x hx => hclean x (by simp [hx])) suf hsuf hsufclean]
      simp

/-- Tokens of `pySplitWs` are non-empty and whitespace-free. -/
theorem pySplitWs_mem (s : String) :
    ∀ t ∈ pySplitWs s, t.data ≠ [] ∧ ∀ c ∈ t.data, pyIsSpace c = false := by
  intro t ht
  rcases List.mem_map.mp ht with ⟨l, hl, rfl⟩
  exact splitWsAux_mem s.data [] (by simp) l hl

/-- Global token-count bound for `pySplitWs`. -/
theorem pySplitWs_two_mul_length_le (s : String) :
    2 * (pySplitWs s).length ≤ s.data.length + 1 := by
  have := splitWsAux_two_mul_length_le s.data []
  simpa [pySplitWs] using this

/-! ## Script-writer lemmas and claims C1, C2, C10 -/

/-- The cleaned script never has more than 55 whitespace tokens: the
truncated branch yields exactly 50 tokens (the ellipsis glues onto the
50th), the other branch is bounded by the `≤ 55` test itself. -/
theorem clean_script_tokens_le (raw : String) :
    (pySplitWs (clean_script raw)).length ≤ 55 := by
  unfold clean_script
  by_cases h : 55 < (pySplitWs (clean_join raw)).length
  · rw [if_pos h]
    have h50 : ((pySplitWs (clean_join raw)).take 50).length = 50 := by
      simp [List.length_take]
      omega
    have hmem : ∀ t ∈ (pySplitWs (clean_join raw)).take 50,
        t.data ≠ [] ∧ ∀ c ∈ t.data, pyIsSpace c = false := by
      intro t ht
      exact pySplitWs_mem _ t (List.mem_of_mem_take ht)
    have hne : (pySplitWs (clean_join raw)).take 50 ≠ [] := by
      intro he
      rw [he] at h50
      simp at h50
    have hcount := splitWsAux_joinSpace_suffix _ hne hmem "...".data
      (by decide) (by decide)
    show ((splitWsAux ((joinSpace ((pySplitWs (clean_join raw)).take 50) ++ "...").data) []).map
        String.mk).length ≤ 55
    rw [List.length_map, String.data_append, hcount, h50]
    omega
  · rw [if_neg h]
    omega

/-- The fallback script is always far below the 55-token bound: its text has
at most 84 characters, hence at most 42 whitespace tokens. -/
theorem fallbackScript_tokens_le (parts : List String) :
    (pySplitWs (fallbackScript parts)).length ≤ 55 := by
  have hb := pySplitWs_two_mul_length_le (fallbackScript parts)
  have hlen : (fallbackScript parts).data.length ≤ 84 := by
    unfold fallbackScript
    cases parts with
    | nil => decide
    | cons p ps =>
      show (("Check out " ++ String.mk (p.data.take 50)) ++
          "... Click to learn more!").data.length ≤ 84
      rw [String.data_append, String.data_append]
      simp [List.length_append, List.length_take]
  omega

/-- `parsedCandidates` never yields more than the expected count. -/
theorem parsedCandidates_length_le (text : String) (n : Nat) :
    (parsedCandidates text n).length ≤ n := by
  unfold parsedCandidates
  simp [List.length_take]

/-- C1: for every provider response string, including the empty string,
`generate_pitch_scripts` returns a list of exactly 3 script candidates:
fewer than 3 parsed segments are padded with the deterministic templated
fallback candidate instead of failing. -/
theorem c1_generate_pitch_scripts_returns_three (response : String) :
    (generate_pitch_scripts response).length = 3 := by
  unfold generate_pitch_scripts parse_multiple_scripts
  have h := parsedCandidates_length_le response 3
  simp only [List.length_append, List.length_replicate]
  omega

/-- C2 counterexample: the claim "every returned entry satisfies
`word_count = len(script.split())`, including padded fallback candidates" is
false: on the empty provider response all three entries are the fallback
candidate, whose script has 9 whitespace tokens but whose `word_count` is the
hard-coded literal 10. -/
theorem c2_counterexample_fallback_word_count :
    ¬ (∀ (response : String), ∀ c ∈ generate_pitch_scripts response,
        c.word_count = (pySplitWs c.script).length) := by
  intro hclaim
  have h1 : fallbackCandidate [] ∈ generate_pitch_scripts "" := by decide
  have h2 := hclaim "" (fallbackCandidate []) h1
  revert h2
  decide

/-- C2 (amended): every parsed (non-padded) candidate satisfies
`word_count = len(script.split())`; a padded entry is the fallback candidate,
whose `word_count` is the hard-coded 10 (which need not equal its own token
count). -/
theorem c2_word_count_roundtrip_amended (response : String) (c : ScriptCandidate)
    (hc : c ∈ generate_pitch_scripts response) :
    c.word_count = (pySplitWs c.script).length ∨
      (c = fallbackCandidate (partsOfResponse response 3) ∧ c.word_count = 10) := by
  unfold generate_pitch_scripts parse_multiple_scripts at hc
  rcases List.mem_append.mp hc with h | h
  · left
    unfold parsedCandidates at h
    rcases List.mem_map.mp h with ⟨t, _, rfl⟩
    rfl
  · right
    have he := List.eq_of_mem_replicate h
    exact ⟨he, by rw [he]; rfl⟩

theorem c2_word_count_roundtrip_amended_witness :
    mkScriptCandidate "Hello world" ∈ generate_pitch_scripts
        "SCRIPT 1: Hello world\n\nSCRIPT 2: Second pitch\n\nSCRIPT 3: Third pitch" ∧
      ((mkScriptCandidate "Hello world").word_count
          = (pySplitWs (mkScriptCandidate "Hello world").script).length ∨
        (mkScriptCandidate "Hello world" = fallbackCandidate (partsOfResponse
            "SCRIPT 1: Hello world\n\nSCRIPT 2: Second pitch\n\nSCRIPT 3: Third pitch" 3) ∧
          (mkScriptCandidate "Hello world").word_count = 10)) :=
  ⟨by decide, c2_word_count_roundtrip_amended _ _ (by decide)⟩

/-- C10: every candidate returned by `generate_pitch_scripts` has at most 55
whitespace tokens; a cleaned candidate with more than 55 tokens is truncated
to its first 50 tokens with an ellipsis appended, one with at most 55 tokens
(in particular 51 to 55) passes through untruncated, and the fallback
candidate is always under the bound. -/
theorem c10_candidate_word_bound (response : String) :
    (∀ c ∈ generate_pitch_scripts response, (pySplitWs c.script).length ≤ 55) ∧
      (∀ raw : String,
        (55 < (pySplitWs (clean_join raw)).length →
          clean_script raw = joinSpace ((pySplitWs (clean_join raw)).take 50) ++ "...") ∧
        ((pySplitWs (clean_join raw)).length ≤ 55 → clean_script raw = clean_join raw)) := by
  constructor
  · intro c hc
    unfold generate_pitch_scripts parse_multiple_scripts at hc
    rcases List.mem_append.mp hc with h | h
    · unfold parsedCandidates at h
      rcases List.mem_map.mp h with ⟨t, _, rfl⟩
      exact clean_script_tokens_le t
    · rw [List.eq_of_mem_replicate h]
      exact fallbackScript_tokens_le _
  · intro raw
    constructor
    · intro h
      unfold clean_script
      rw [if_pos h]
    · intro h
      unfold clean_script
      rw [if_neg (by omega)]

theorem c10_candidate_word_bound_witness :
    (fallbackCandidate (partsOfResponse "" 3) ∈ generate_pitch_scripts "" ∧
        (pySplitWs (fallbackCandidate (partsOfResponse "" 3)).script).length ≤ 55) ∧
      ((pySplitWs (clean_join "Buy this course now")).length ≤ 55 ∧
        clean_script "Buy this course now" = clean_join "Buy this course now") :=
  ⟨⟨by decide, (c10_candidate_word_bound "").1 (fallbackCandidate (partsOfResponse "" 3))
      (by decide)⟩,
    ⟨by decide, ((c10_candidate_word_bound "").2 "Buy this course now").2 (by decide)⟩⟩

/-! ## Scraper lemmas and claims C4, C5, C8 -/

theorem startsWithL_self_append :
    ∀ (p rest : List Char), startsWithL p (p ++ rest) = true := by
  intro p
  induction p with
  | nil => intro rest; rfl
  | cons c p ih => intro rest; simp [startsWithL, ih]

/-- Appending a suffix makes `endswith` that suffix true. -/
theorem pyEndsWith_append (x suf : String) :
    pyEndsWith (x ++ suf) suf = true := by
  unfold pyEndsWith
  rw [String.data_append, List.reverse_append]
  exact startsWithL_self_append suf.data.reverse x.data.reverse

/-- The preview never has more than 200 whitespace tokens. -/
theorem makePreview_tokens_le (text : String) :
    (pySplitWs (makePreview text)).length ≤ 200 := by
  unfold makePreview
  by_cases h : 200 < (pySplitWs text).length
  · rw [if_pos h]
    have h200 : ((pySplitWs text).take 200).length = 200 := by
      simp [List.length_take]
      omega
    have hmem : ∀ t ∈ (pySplitWs text).take 200,
        t.data ≠ [] ∧ ∀ c ∈ t.data, pyIsSpace c = false := by
      intro t ht
      exact pySplitWs_mem _ t (List.mem_of_mem_take ht)
    have hne : (pySplitWs text).take 200 ≠ [] := by
      intro he
      rw [he] at h200
      simp at h200
    have hcount := splitWsAux_joinSpace_suffix _ hne hmem "...".data
      (by decide) (by decide)
    show ((splitWsAux ((joinSpace ((pySplitWs text).take 200) ++ "...").data) []).map
        String.mk).length ≤ 200
    rw [List.length_map, String.data_append, hcount, h200]
  · rw [if_neg h]
    omega

/-- `identify_link_type` always lands in the 8-member enum. -/
theorem identify_link_type_mem (url : String) (content : PageContent) :
    identify_link_type url content ∈ linkTypeEnum := by
  unfold identify_link_type
  repeat' split
  all_goals decide

/-- C4: for every (url, title, description, preview) input,
`identify_link_type` returns a member of the 8-member enum, chosen by first
match in the priority order course, coaching, product, newsletter, blog,
video, social, else website; in particular a page whose combined lowercased
text contains both "course" and "buy now" classifies as course, never
product. -/
theorem c4_identify_link_type_enum_and_priority (url : String) (content : PageContent) :
    identify_link_type url content ∈ linkTypeEnum ∧
      (pyContains (combinedText url content) "course" = true →
        pyContains (combinedText url content) "buy now" = true →
        identify_link_type url content = "course") := by
  refine ⟨identify_link_type_mem url content, ?_⟩
  intro h1 _
  have hcond : (courseWords.any fun w => pyContains (combinedText url content) w) = true := by
    simp only [courseWords, List.any_cons, List.any_nil, Bool.or_eq_true]
    exact Or.inl h1
  unfold identify_link_type
  simp [hcond]

theorem c4_identify_link_type_enum_and_priority_witness :
    pyContains (combinedText "https://example.com/offer"
        ⟨some "Great course", some "buy now and save", none, none⟩) "course" = true ∧
      identify_link_type "https://example.com/offer"
        ⟨some "Great course", some "buy now and save", none, none⟩ = "course" :=
  ⟨by decide,
    (c4_identify_link_type_enum_and_priority "https://example.com/offer"
      ⟨some "Great course", some "buy now and save", none, none⟩).2 (by decide) (by decide)⟩

/-- C5 counterexample: the "ends with an ellipsis marker if and only if the
source exceeded 200 words" direction fails when the normalized source text
itself ends in `...` while having at most 200 words: the preview is then the
full text and still ends with the marker. -/
theorem c5_counterexample_ellipsis_iff :
    ¬ (∀ (t m : Option String) (raw : String),
        pyEndsWith ((scrape_page_content (.success t m raw)).preview_text.getD "") "..." = true ↔
          200 < (pySplitWs (normalizeText raw)).length) := by
  intro hclaim
  have h := (hclaim none none "wow...").mp (by decide)
  revert h
  decide

/-- C5 (amended): the preview has at most 200 whitespace tokens; when the
normalized source text exceeds 200 words the preview is its first 200 words
with `...` appended (hence ends with the marker); when the source has 200 or
fewer words the preview equals the full normalized text — which may itself
end in an ellipsis, so the marker only indicates truncation one way. -/
theorem c5_preview_bound_amended (t m : Option String) (raw : String) :
    (pySplitWs ((scrape_page_content (.success t m raw)).preview_text.getD "")).length ≤ 200 ∧
      (200 < (pySplitWs (normalizeText raw)).length →
        (scrape_page_content (.success t m raw)).preview_text =
            some (joinSpace ((pySplitWs (normalizeText raw)).take 200) ++ "...") ∧
          pyEndsWith ((scrape_page_content (.success t m raw)).preview_text.getD "") "..." = true) ∧
      ((pySplitWs (normalizeText raw)).length ≤ 200 →
        (scrape_page_content (.success t m raw)).preview_text = some (normalizeText raw)) := by
  refine ⟨makePreview_tokens_le (normalizeText raw), ?_, ?_⟩
  · intro h
    have hp : makePreview (normalizeText raw) =
        joinSpace ((pySplitWs (normalizeText raw)).take 200) ++ "..." := by
      unfold makePreview
      rw [if_pos h]
    constructor
    · show some (makePreview (normalizeText raw)) = _
      rw [hp]
    · show pyEndsWith (makePreview (normalizeText raw)) "..." = true
      rw [hp]
      exact pyEndsWith_append _ _
  · intro h
    show some (makePreview (normalizeText raw)) = some (normalizeText raw)
    unfold makePreview
    rw [if_neg (by omega)]

theorem c5_preview_bound_amended_witness :
    200 < (pySplitWs (normalizeText "wow...")).length ∨
      ((pySplitWs (normalizeText "wow...")).length ≤ 200 ∧
        (scrape_page_content (.success none none "wow...")).preview_text =
          some (normalizeText "wow...")) :=
  Or.inr ⟨by decide, (c5_preview_bound_amended none none "wow...").2.2 (by decide)⟩

/-- C8: a fetch failure does not abort the pipeline: `scrape_page_content`
returns the empty-content record (all four fields absent) instead of
propagating the error, and `scrape_link_content` still produces a
`link_type` from the enum, so script generation can proceed with degraded
context. -/
theorem c8_fetch_failure_degrades_gracefully (url : String) :
    scrape_page_content .failure = emptyPageContent ∧
      emptyPageContent.title = none ∧
      emptyPageContent.meta_description = none ∧
      emptyPageContent.preview_text = none ∧
      emptyPageContent.full_content = none ∧
      (scrape_link_content url .failure).content = emptyPageContent ∧
      (scrape_link_content url .failure).link_type ∈ linkTypeEnum :=
  ⟨rfl, rfl, rfl, rfl, rfl, rfl, identify_link_type_mem url emptyPageContent⟩

/-! ## Script selection: claims C3 and C9 -/

/-- C3 counterexample: selecting `script_type = "brief"` on a link with no
generated variations does not fail with a script-not-found error leaving the
record unchanged — the endpoint commits `None` into both `selected_script`
and `voice_message_text` (overwriting the prior values) and only afterwards
raises an uncaught `TypeError` on `len(None)`. -/
theorem c3_counterexample_null_selection_persisted :
    select_script_for_link
        ⟨none, none, none, some "old script", some "old script", none⟩
        ⟨some "brief", none, none, none⟩ =
      .committedThenError ⟨none, none, none, none, none, none⟩ ∧
      (⟨none, none, none, none, none, none⟩ : Link).selected_script ≠
        (⟨none, none, none, some "old script", some "old script", none⟩ : Link).selected_script := by
  constructor
  · rfl
  · decide

/-- C3 (amended): calling select_script with `script_type = "brief"` when
`script_brief` was never generated does not raise a script-not-found error:
it commits `None` to both `selected_script` and `voice_message_text`
(overwriting any prior values) and then fails with an internal error
(`TypeError` on `len(None)`) after the commit. -/
theorem c3_select_brief_unset_amended (link : Link) (req : SelectScriptRequest)
    (h1 : link.script_brief = none)
    (h2 : pyTruthy req.script = false)
    (h3 : pyTruthy req.custom_text = false)
    (h4 : req.script_type = some "brief") :
    select_script_for_link link req =
      .committedThenError { link with selected_script := none, voice_message_text := none } := by
  have hst : pyTruthy req.script_type = true := by rw [h4]; decide
  have hbt : pyTruthy (some "brief") = true := by decide
  unfold select_script_for_link
  simp [hst, hbt, h2, h3, h4, h1]

theorem c3_select_brief_unset_amended_witness :
    select_script_for_link
        ⟨none, none, none, some "old script", some "old script", some "link_voices/x.mp3"⟩
        ⟨some "brief", none, none, some 0⟩ =
      .committedThenError ⟨none, none, none, none, none, some "link_voices/x.mp3"⟩ :=
  c3_select_brief_unset_amended _ _ rfl rfl rfl rfl

/-- C9: when a select-script request supplies several of the fields
`script`, `custom_text` and `script_type`, the persisted selection follows
the fixed precedence `script` over `custom_text` over `script_type`, and the
winning text is written to both `selected_script` and `voice_message_text`. -/
theorem c9_selection_precedence (link : Link) (req : SelectScriptRequest) :
    (pyTruthy req.script = true →
      persistedLink (select_script_for_link link req) =
        some { link with selected_script := req.script, voice_message_text := req.script }) ∧
    (pyTruthy req.script = false → pyTruthy req.custom_text = true →
      persistedLink (select_script_for_link link req) =
        some { link with selected_script := req.custom_text,
                         voice_message_text := req.custom_text }) ∧
    (pyTruthy req.script = false → pyTruthy req.custom_text = false →
      req.script_type = some "brief" →
      persistedLink (select_script_for_link link req) =
        some { link with selected_script := link.script_brief,
                         voice_message_text := link.script_brief }) := by
  refine ⟨?_, ?_, ?_⟩
  · intro h
    cases hsc : req.script with
    | none => rw [hsc] at h; exact absurd h (by decide)
    | some s =>
      rw [hsc] at h
      unfold select_script_for_link
      simp [h, hsc, persistedLink]
  · intro h hcu
    cases hc : req.custom_text with
    | none => rw [hc] at hcu; exact absurd hcu (by decide)
    | some s =>
      rw [hc] at hcu
      unfold select_script_for_link
      simp [h, hcu, hc, persistedLink]
  · intro h hcu hty
    have hst : pyTruthy req.script_type = true := by rw [hty]; decide
    have hbt : pyTruthy (some "brief") = true := by decide
    unfold select_script_for_link
    cases hb : link.script_brief with
    | none => simp [h, hcu, hst, hbt, hty, hb, persistedLink]
    | some s => simp [h, hcu, hst, hbt, hty, hb, persistedLink]

theorem c9_selection_precedence_witness :
    pyTruthy (some "wizard text") = true ∧
      persistedLink (select_script_for_link
          ⟨some "brief text", none, none, none, none, none⟩
          ⟨some "brief", some "custom text", some "wizard text", none⟩) =
        some ⟨some "brief text", none, none, some "wizard text", some "wizard text", none⟩ :=
  ⟨by decide,
    (c9_selection_precedence ⟨some "brief text", none, none, none, none, none⟩
      ⟨some "brief", some "custom text", some "wizard text", none⟩).1 (by decide)⟩

/-! ## Audio generation: claims C6 and C7 -/

/-- A freshly written file exists in the store. -/
theorem fileExists_writeFile (fs : FS) (p : String) (b : List Nat) :
    fileExists (writeFile fs p b) p = true := by
  simp [fileExists, writeFile]

/-- After deleting a path it no longer exists. -/
theorem fileExists_deleteFile_self (fs : FS) (p : String) :
    fileExists (deleteFile fs p) p = false := by
  unfold fileExists deleteFile
  induction fs with
  | nil => rfl
  | cons e fs ih =>
    by_cases h : e.1 = p
    · simpa [List.filter_cons, h] using ih
    · simpa [List.filter_cons, h, List.any_cons] using ih

/-- Deleting one path leaves the existence of another unchanged. -/
theorem fileExists_deleteFile_of_ne (fs : FS) (p q : String) (h : p ≠ q) :
    fileExists (deleteFile fs q) p = fileExists fs p := by
  unfold fileExists deleteFile
  induction fs with
  | nil => rfl
  | cons e fs ih =>
    by_cases he : e.1 = q
    · have hep : (e.1 == p) = false := by
        rw [he]
        exact beq_eq_false_iff_ne.mpr (fun hh => h hh.symm)
      have hef : (e.1 != q) = false := by simp [he]
      simp only [List.filter_cons, hef, Bool.false_eq_true, if_false, List.any_cons,
        hep, Bool.false_or]
      exact ih
    · have hef : (e.1 != q) = true := by simp [he]
      simp only [List.filter_cons, hef, if_true, List.any_cons, ih]

/-- `link_voices/…` paths are non-empty, hence truthy once stored. -/
theorem linkVoices_path_truthy (n : String) :
    pyTruthy (some ("link_voices/" ++ n)) = true := by
  simp only [pyTruthy, bne_iff_ne, ne_eq]
  intro h
  have hd := congrArg String.data h
  rw [String.data_append] at hd
  simp at hd

/-- Inversion of a successful run of the audio endpoint: success implies the
provider returned a 200 response, the link record points at the fresh
`link_voices/` path and keeps its text, and the store holds the written body
with the previously referenced artifact deleted first. -/
theorem generate_audio_for_link_ok_fields
    (vc : Option String) (st : AudioState) (resp : Option ProviderResponse)
    (name : String) (st' : AudioState)
    (h : generate_audio_for_link vc st resp name = .ok st') :
    st'.link.voice_message_audio = some ("link_voices/" ++ name) ∧
      st'.link.voice_message_text = some (st.link.voice_message_text.getD "") ∧
      ∃ r, resp = some r ∧ r.status = 200 ∧
        st'.fs = (if pyTruthy st.link.voice_message_audio then
            deleteFile (writeFile st.fs ("link_voices/" ++ name) r.body)
              (st.link.voice_message_audio.getD "")
          else writeFile st.fs ("link_voices/" ++ name) r.body) := by
  unfold generate_audio_for_link at h
  by_cases hvc : pyTruthy vc = false
  · rw [if_pos hvc] at h
    simp at h
  · rw [if_neg hvc] at h
    by_cases htx : pyTruthy st.link.voice_message_text = false
    · rw [if_pos htx] at h
      simp at h
    · rw [if_neg htx] at h
      by_cases hsp : pyStrip (st.link.voice_message_text.getD "") = ""
      · rw [if_pos hsp] at h
        simp at h
      · rw [if_neg hsp] at h
        cases resp with
        | none => simp [generate_audio] at h
        | some r =>
          by_cases hst : r.status = 200
          · have hex := fileExists_writeFile st.fs ("link_voices/" ++ name) r.body
            simp only [generate_audio, hst, if_true, hex] at h
            simp at h
            refine ⟨?_, ?_, r, rfl, hst, ?_⟩ <;> rw [← h]
          · simp [generate_audio, hst] at h

/-- C6 counterexample: an HTTP 200 response with an empty body is not
treated as a synthesis failure: `generate_audio` writes an empty artifact
file, returns `True`, and the endpoint persists the new path onto the
link. -/
theorem c6_counterexample_empty_body_treated_as_success :
    generate_audio_for_link (some "voice1")
        ⟨[], ⟨none, none, none, some "hi there", some "hi there", none⟩⟩
        (some ⟨200, []⟩) "a.mp3" =
      .ok ⟨[("link_voices/a.mp3", [])],
           ⟨none, none, none, some "hi there", some "hi there",
            some "link_voices/a.mp3"⟩⟩ := by
  decide

/-- C6 (amended): when the synthesis provider call raises an exception or
returns a non-2xx status, `generate_audio` reports failure and the endpoint
raises a synthesis error with the link record and the artifact store exactly
as they were — no new artifact path is persisted.  (A 2xx response with an
empty body, however, is treated as success: an empty artifact is written and
its path persisted.) -/
theorem c6_synthesis_failure_leaves_record_untouched
    (vc : Option String) (st : AudioState) (resp : Option ProviderResponse) (name : String)
    (hvc : pyTruthy vc = true)
    (htext : pyTruthy st.link.voice_message_text = true)
    (hstrip : pyStrip (st.link.voice_message_text.getD "") ≠ "")
    (hfail : resp = none ∨ ∃ r, resp = some r ∧ r.status ≠ 200) :
    generate_audio_for_link vc st resp name =
      .err "Failed to generate audio. Please check your voice clone and try again." st := by
  unfold generate_audio_for_link generate_audio
  rcases hfail with rfl | ⟨r, rfl, hr⟩
  · simp [hvc, htext, hstrip]
  · simp [hvc, htext, hstrip, hr]

theorem c6_synthesis_failure_leaves_record_untouched_witness :
    generate_audio_for_link (some "voice1")
        ⟨[("link_voices/old.mp3", [3])],
         ⟨none, none, none, some "hi there", some "hi there", some "link_voices/old.mp3"⟩⟩
        (some ⟨500, [1, 2]⟩) "a.mp3" =
      .err "Failed to generate audio. Please check your voice clone and try again."
        ⟨[("link_voices/old.mp3", [3])],
         ⟨none, none, none, some "hi there", some "hi there", some "link_voices/old.mp3"⟩⟩ :=
  c6_synthesis_failure_leaves_record_untouched _ _ _ _ (by decide) (by decide) (by decide)
    (Or.inr ⟨⟨500, [1, 2]⟩, rfl, by decide⟩)

/-- C7: two successive successful synthesize calls for the same link leave
exactly one audio file referenced: the record points at the second call's
path, that file exists in the store, and the first call's file has been
deleted.  The prior path reference is cleared (its file deleted) before the
new path is written to the record. -/
theorem c7_audio_replacement_no_accumulation
    (vc : Option String) (st : AudioState) (resp1 resp2 : Option ProviderResponse)
    (n1 n2 : String)
    (hne : ("link_voices/" ++ n1 : String) ≠ ("link_voices/" ++ n2 : String)) :
    ∀ st1, generate_audio_for_link vc st resp1 n1 = .ok st1 →
    ∀ st2, generate_audio_for_link vc st1 resp2 n2 = .ok st2 →
      st2.link.voice_message_audio = some ("link_voices/" ++ n2) ∧
      fileExists st2.fs ("link_voices/" ++ n2) = true ∧
      fileExists st2.fs ("link_voices/" ++ n1) = false := by
  intro st1 hc1 st2 hc2
  obtain ⟨ha1, ht1, r1', hr1eq, hr1st, hfs1⟩ :=
    generate_audio_for_link_ok_fields _ _ _ _ _ hc1
  obtain ⟨ha2, ht2, r2', hr2eq, hr2st, hfs2⟩ :=
    generate_audio_for_link_ok_fields _ _ _ _ _ hc2
  have hp : pyTruthy (some ("link_voices/" ++ n1)) = true := linkVoices_path_truthy n1
  refine ⟨ha2, ?_, ?_⟩
  · rw [hfs2, ha1, if_pos hp, Option.getD_some]
    rw [fileExists_deleteFile_of_ne _ _ _ (fun hh => hne hh.symm)]
    exact fileExists_writeFile _ _ _
  · rw [hfs2, ha1, if_pos hp, Option.getD_some]
    exact fileExists_deleteFile_self _ _

theorem c7_audio_replacement_no_accumulation_witness :
    ({ fs := [("link_voices/b.mp3", [7])],
       link := (⟨none, none, none, none, some "hi", some "link_voices/b.mp3"⟩ : Link) } :
        AudioState).link.voice_message_audio = some ("link_voices/" ++ "b.mp3") ∧
      fileExists [("link_voices/b.mp3", [7])] ("link_voices/" ++ "b.mp3") = true ∧
      fileExists [("link_voices/b.mp3", [7])] ("link_voices/" ++ "a.mp3") = false :=
  c7_audio_replacement_no_accumulation (some "v")
    ⟨[], ⟨none, none, none, none, some "hi", none⟩⟩
    (some ⟨200, [7]⟩) (some ⟨200, [7]⟩) "a.mp3" "b.mp3" (by decide)
    ⟨[("link_voices/a.mp3", [7])], ⟨none, none, none, none, some "hi", some "link_voices/a.mp3"⟩⟩
    (by decide)
    ⟨[("link_voices/b.mp3", [7])], ⟨none, none, none, none, some "hi", some "link_voices/b.mp3"⟩⟩
    (by decide)

end SelfieFM
